import Mathlib

/-!
# Verification of the Gris client core (session transport, envelopes, validation)

Shallow embedding of the TypeScript sources of the `gris` client:
* `src/util/crypto.ts` — the `xor` primitive;
* the main class file — constructor validation, `login` precondition checks,
  `APIRequest` envelope construction and `commandNum` bookkeeping,
  `postRequest` retry/resend loop with its `nonce` bookkeeping and
  response-body checks.

JavaScript mutable state is threaded explicitly; the HTTP transport is an
oracle mapping the attempt counter to the observed outcome; `Date.now`-derived
timestamps, the random multipart boundary and the HMAC-SHA1 primitive are
parameters of the embedding.
-/

namespace Gris

/-! ## `src/util/crypto.ts` : `xor`

Buffers are byte lists.  The source converts string operands to buffers,
computes `minLength`, and pushes `a[i] ^ b[i]` for `i < minLength`, which is
exactly `List.zipWith`. -/

def xor (a b : List Nat) : List Nat :=
  List.zipWith (fun x y => x ^^^ y) a b

/-! ## JavaScript-flavoured helpers -/

/-- `String.prototype.includes(sub)`: substring containment. -/
def jsIncludes (s sub : String) : Bool :=
  decide (sub.toList <:+: s.toList)

/-- `String.prototype.split(sep)` for a one-character separator. -/
def jsSplit (s : String) (sep : Char) : List String :=
  (s.toList.splitOn sep).map (fun l => String.mk l)

/-- A character of the class `[0-9A-F]` under the `i` (ignore-case) flag. -/
def isHexCharJs (c : Char) : Bool :=
  ('0' ≤ c && c ≤ '9') || ('A' ≤ c && c ≤ 'F') || ('a' ≤ c && c ≤ 'f')

/-- A character of the class `[0-9A-Z]` under the `i` flag: digits and
letters, i.e. alphanumeric.  Note this is wider than hexadecimal. -/
def isAlnumCharJs (c : Char) : Bool :=
  ('0' ≤ c && c ≤ '9') || ('A' ≤ c && c ≤ 'Z') || ('a' ≤ c && c ≤ 'z')

/-- A character of the class `[89AB]` under the `i` flag (UUID variant nibble). -/
def isVariantCharJs (c : Char) : Bool :=
  c = '8' || c = '9' || c = 'A' || c = 'B' || c = 'a' || c = 'b'

/-- The login-key regex
`/^[0-9A-F]{8}-[0-9A-F]{4}-4[0-9A-F]{3}-[89AB][0-9A-F]{3}-[0-9A-F]{12}$/gi`:
8 hex chars, dash, 4 hex, dash, `4` then 3 hex, dash, variant nibble then
3 hex, dash, 12 hex — anchored at both ends. -/
def uuidV4Match (s : String) : Bool :=
  match s.toList with
  | a1 :: a2 :: a3 :: a4 :: a5 :: a6 :: a7 :: a8 :: d1 ::
    b1 :: b2 :: b3 :: b4 :: d2 ::
    c0 :: c1 :: c2 :: c3 :: d3 ::
    v0 :: v1 :: v2 :: v3 :: d4 ::
    e1 :: e2 :: e3 :: e4 :: e5 :: e6 :: e7 :: e8 :: e9 :: e10 :: e11 :: e12 :: [] =>
    [a1, a2, a3, a4, a5, a6, a7, a8].all isHexCharJs &&
    d1 = '-' &&
    [b1, b2, b3, b4].all isHexCharJs &&
    d2 = '-' &&
    c0 = '4' && [c1, c2, c3].all isHexCharJs &&
    d3 = '-' &&
    isVariantCharJs v0 && [v1, v2, v3].all isHexCharJs &&
    d4 = '-' &&
    [e1, e2, e3, e4, e5, e6, e7, e8, e9, e10, e11, e12].all isHexCharJs
  | _ => false

/-- The login-passwd regex `/^[0-9A-Z]{128}/gi` (no `$` anchor): the first 128
characters are alphanumeric. -/
def loginPasswdMatch (s : String) : Bool :=
  (s.toList.take 128).length = 128 && (s.toList.take 128).all isAlnumCharJs

/-- `keychain.loginKey` validity as tested both by the constructor and by
`login()`: `length === 36 && match(uuid-v4 regex)`. -/
def loginKeyCheck (s : String) : Bool :=
  s.length = 36 && uuidV4Match s

/-- `keychain.loginPasswd` validity as tested both by the constructor and by
`login()`: `length === 128 && match(/^[0-9A-Z]{128}/gi)`. -/
def loginPasswdCheck (s : String) : Bool :=
  s.length = 128 && loginPasswdMatch s

/-! ## Data model -/

/-- `ISession` (`userId`, `mgd` as their numeric values). -/
structure Session where
  authToken : String
  userId : Nat
  mgd : Nat
  nonce : Nat
  commandNum : Nat
  bundleVersion : String
  clientVersion : String
deriving DecidableEq, Repr

/-- The initial `session` field value of a fresh `Gris` instance. -/
def defaultSession : Session :=
  { authToken := ""
    userId := 0
    nonce := 0
    commandNum := 2
    mgd := 2                      -- gameMode.AQOURS
    bundleVersion := "6.9.1"      -- defaultBundleVersion
    clientVersion := "41.4" }     -- defaultClientVersion

/-- `IKeychain`; `sessionKey` is a byte buffer. -/
structure Keychain where
  rsaPublicKey : String
  applicationKey : String
  baseKey : String
  loginKey : String
  loginPasswd : String
  sessionKey : List Nat
deriving DecidableEq, Repr

/-- The initial `keychain` field value of a fresh `Gris` instance
(`Buffer.alloc(32)` is 32 zero bytes). -/
def defaultKeychain : Keychain :=
  { rsaPublicKey := ""
    applicationKey := ""
    baseKey := ""
    loginKey := ""
    loginPasswd := ""
    sessionKey := List.replicate 32 0 }

/-- The private per-instance configuration fields of `Gris`. -/
structure Statics where
  HOST : String
  osVersion : String
  platformType : Nat
  applicationId : Nat
deriving DecidableEq, Repr

/-- Their default values. -/
def defaultStatics : Statics :=
  { HOST := "https://prod-jp.lovelive.ge.klabgames.net"
    osVersion := "iPhone10_1 iPhone 11.3"
    platformType := 1             -- platformType.iOS
    applicationId := 626776655 }

/-- `IConfig` as received by the constructor; optional fields are `Option`. -/
structure Config where
  host : Option String
  gameModeOpt : Option Nat
  platformTypeOpt : Option Nat
  applicationIdOpt : Option Nat
  osVersionOpt : Option String
  loginKey : Option String
  loginPasswd : Option String
  publicKey : String
  baseKey : String
  applicationKey : String
deriving DecidableEq, Repr

/-- Errors surfaced by the embedded operations (each corresponds to one
`throw new Error(...)` site, plus the implicit JavaScript `TypeError`). -/
inductive GrisError where
  | configKeysInvalid        -- "Application key or base key have invalid format"
  | configPublicKeyInvalid   -- "Public key is missing or have invalid format"
  | configProtocolMissing    -- "protocol is not specified"
  | invalidLoginKey          -- "login key is not specified or it have invalid format"
  | invalidLoginPasswd       -- "login passwd is not specified or it have invalid format"
  | banned                   -- "This account is locked a.k.a. banned"
  | maxAttempts              -- "Maximum reconnecting attempts reached."
  | maintenance              -- "The server is under maintenance"
  | unableToConnect          -- "Unable to connect to server"
  | typeErrorResponseData    -- TypeError: cannot read "error_code" of undefined/null
  | wrongCredentials         -- "wrong credentials"
  | invalidResponse          -- "Invalid response: response_data is missing"
deriving DecidableEq, Repr

/-! ## Constructor (`Gris.constructor`, lines 131–172) -/

/-- The whole observable state a constructed instance carries. -/
structure GrisState where
  session : Session
  keychain : Keychain
  statics : Statics
deriving DecidableEq, Repr

/-- The constructor.  Optional-chaining checks (`options.loginKey?.length`)
are `Option` matches; JavaScript truthiness of the optional scalar fields is
made explicit (`0`, `""` and `undefined` are falsy). -/
def grisConstruct (options : Config) : Except GrisError GrisState :=
  let kc0 := defaultKeychain
  let kc1 :=
    match options.loginKey with
    | some k => if loginKeyCheck k then { kc0 with loginKey := k } else kc0
    | none => kc0
  let kc2 :=
    match options.loginPasswd with
    | some p => if loginPasswdCheck p then { kc1 with loginPasswd := p } else kc1
    | none => kc1
  if options.baseKey.length ≠ 32 || options.applicationKey.length ≠ 32 then
    .error .configKeysInvalid
  else if options.publicKey.length = 0 || options.publicKey.length < 250 then
    .error .configPublicKeyInvalid
  else
    let kc3 := { kc2 with
      rsaPublicKey := options.publicKey
      applicationKey := options.applicationKey
      baseKey := options.baseKey }
    let st0 := defaultStatics
    match options.host with
    | some h =>
      if h ≠ "" then
        if ¬ jsIncludes h "://" then .error .configProtocolMissing
        else finishConstruct options kc3 { st0 with HOST := h }
      else finishConstruct options kc3 st0
    | none => finishConstruct options kc3 st0
where
  /-- The tail of the constructor: the remaining truthiness-guarded option
  copies (lines 159–171). -/
  finishConstruct (options : Config) (kc : Keychain) (st : Statics) :
      Except GrisError GrisState :=
    let st1 := match options.applicationIdOpt with
      | some n => if n ≠ 0 then { st with applicationId := n } else st
      | none => st
    let st2 := match options.platformTypeOpt with
      | some n => if n ≠ 0 then { st1 with platformType := n } else st1
      | none => st1
    let st3 := match options.osVersionOpt with
      | some s => if s ≠ "" then { st2 with osVersion := s } else st2
      | none => st2
    let sess := match options.gameModeOpt with
      | some m => if m ≠ 0 then { defaultSession with mgd := m } else defaultSession
      | none => defaultSession
    .ok { session := sess, keychain := kc, statics := st3 }

/-! ## `login()` precondition checks (lines 313–321)

These two guards run synchronously at the top of `login()`, before the first
`await` (`getLatestBundleVersion`) and hence before any network traffic. -/

/-- The validation prologue of `login()`; the guard conditions are the same
length-and-regex tests as in the constructor. -/
def loginPrecheck (kc : Keychain) : Except GrisError Unit :=
  if ¬ loginKeyCheck kc.loginKey then
    .error .invalidLoginKey
  else if ¬ loginPasswdCheck kc.loginPasswd then
    .error .invalidLoginPasswd
  else
    .ok ()

/-! ## Server responses

The transport oracle maps the loop's `attempt` counter to what that HTTP POST
observes: either a thrown transport error, carrying `err.status` when the
failure is an HTTP error (`none` for plain network failures), or a parsed
response.  Of the parsed body only the `response_data` field is relevant to
the transport; `none` models an absent field (JavaScript `undefined`). -/

/-- The `response_data` value: `null`, or an object with an optional
`error_code` field. -/
inductive RData where
  | nullV
  | obj (errorCode : Option Int)
deriving DecidableEq, Repr

/-- A received HTTP response: the `maintenance` and `server-version` headers
and the parsed JSON body's `response_data` field. -/
structure Resp where
  maintenance : Bool
  serverVersion : Option String
  responseData : Option RData
deriving DecidableEq, Repr

/-- Outcome of one physical POST. -/
inductive Outcome where
  | throwErr (status : Option Nat)
  | resp (r : Resp)
deriving DecidableEq, Repr

/-- `responseBody.response_data.error_code` (line 537): reading a property of
`undefined` or `null` throws a TypeError. -/
def rdErrorCode : Option RData → Except GrisError (Option Int)
  | none => .error .typeErrorResponseData
  | some .nullV => .error .typeErrorResponseData
  | some (.obj ec) => .ok ec

/-- JavaScript falsiness of the `response_data` value as used by
`!responseBody.response_data` (line 538): `undefined` and `null` are falsy,
objects are truthy. -/
def rdFalsy : Option RData → Bool
  | none => true
  | some .nullV => true
  | some (.obj _) => false

/-- Lines 536–540 of `postRequest`: the body checks run after the loop, in
source order — the `error_code === 407` test dereferences `response_data`
before the missing-`response_data` test. -/
def checkBody (rd : Option RData) : Except GrisError (Option RData) :=
  match rdErrorCode rd with
  | .error e => .error e
  | .ok ec =>
    if ec = some 407 then .error .wrongCredentials
    else if rdFalsy rd then .error .invalidResponse
    else .ok rd

/-! ## Headers and the send loop -/

/-- `getPlatformString()`. -/
def getPlatformString (st : Statics) : String :=
  if st.platformType = 1 then "iOS" else "Android"

/-- The header set built by `getHeaders()` (lines 442–457). -/
structure BaseHeaders where
  accept : String
  apiModel : String
  debugFlag : String
  bundleVersion : String
  clientVersion : String
  osVersion : String
  os : String
  platformTypeH : String
  applicationIdH : String
  timeZone : String
  region : String
  xBundleId : String
deriving DecidableEq, Repr

/-- `getHeaders()`. -/
def getHeaders (st : Statics) (sess : Session) : BaseHeaders :=
  { accept := "*/*"
    apiModel := "straightforward"
    debugFlag := "1"
    bundleVersion := sess.bundleVersion
    clientVersion := sess.clientVersion
    osVersion := st.osVersion
    os := getPlatformString st
    platformTypeH := toString st.platformType
    applicationIdH := toString st.applicationId
    timeZone := "JST"
    region := "392"
    xBundleId := "klb.android.lovelive" }

/-- The `Authorize` header contents (`IAuthorize`, built by
`getAuthorizeString`, lines 466–477); the token is included iff
`session.authToken` is non-empty. -/
structure AuthorizeH where
  consumerKey : String
  timeStamp : Nat
  version : String
  nonce : Nat
  token : Option String
deriving DecidableEq, Repr

/-- `getAuthorizeString()` at the current session state; `Date.now`-derived
`timeStamp()` is the parameter `tsNow`. -/
def getAuthorize (tsNow : Nat) (sess : Session) : AuthorizeH :=
  { consumerKey := "lovelive_test"
    timeStamp := tsNow
    version := "1.1"
    nonce := sess.nonce
    token := if sess.authToken.length > 0 then some sess.authToken else none }

/-- `createMultipart` (lines 577–583); the random hex part of the boundary is
the parameter `boundaryRand`.  Returns `(contentType, body)`. -/
def createMultipart (boundaryRand : String) (requestBody : String) : String × String :=
  let boundary := String.mk (List.replicate 24 '-') ++ boundaryRand
  ("multipart/form-data; boundary=" ++ boundary,
   "--" ++ boundary ++ "\r\nContent-Disposition: form-data; name=\"request_data\"\r\n\r\n"
     ++ requestBody ++ "\r\n--" ++ boundary ++ "--\r\n")

/-- Everything of a physical send that is computed once before the retry loop
(lines 484–494): all headers except `Authorize`, and the body. -/
structure SendBase where
  headers : BaseHeaders
  xMessageCode : Option String
  contentLength : Option Nat
  contentType : Option String
  userIdHeader : Option String
  body : Option String
  tsNow : Nat
deriving DecidableEq, Repr

/-- One transmitted HTTP POST: the precomputed parts plus the per-attempt
`Authorize` header. -/
structure SendRecord where
  base : SendBase
  authorize : AuthorizeH
deriving DecidableEq, Repr

/-- The `server-version` resend condition (lines 516–521): header present and
truthy, different from the current client version, endpoint not a login
endpoint. -/
def versionSkew (serverVersion : Option String) (clientVersion endPoint : String) : Bool :=
  match serverVersion with
  | some v => v ≠ "" && v ≠ clientVersion && ¬ jsIncludes endPoint "login"
  | none => false

/-- `this.session.nonce += 1` (lines 499 and 525). -/
def bumpNonce (sess : Session) : Session :=
  { sess with nonce := sess.nonce + 1 }

/-- `this.session.clientVersion = response.header["server-version"]` followed
by the second nonce bump (lines 523–525). -/
def adoptVersion (sess : Session) (v : String) : Session :=
  { sess with clientVersion := v, nonce := sess.nonce + 1 }

/-- One physical POST: the precomputed `SendBase` plus the per-attempt
`Authorize` header (line 500). -/
def mkSend (sb : SendBase) (sess : Session) : SendRecord :=
  ⟨sb, getAuthorize sb.tsNow sess⟩

/-- The retry loop of `postRequest` (lines 497–532), fuel-indexed: the source
iterates `attempt = 1..5`, so the loop is entered with `fuel = 5`,
`attempt = 1` and maintains `fuel + attempt = 6`; `fuel = 0` is the loop
condition `attempt <= 5` failing.  Returns the final session, the list of
transmitted requests, and either a thrown error or the value of the
`response` variable at loop exit. -/
def prLoop (oracle : Nat → Outcome) (endPoint : String) (sb : SendBase) :
    Nat → Nat → Session → Option Resp → List SendRecord →
    Session × List SendRecord × Except GrisError (Option Resp)
  | 0, _attempt, sess, prev, sends => (sess, sends, .ok prev)
  | fuel + 1, attempt, sess, prev, sends =>
    -- "increment nonce after every request" (line 499), set Authorize, POST
    match oracle attempt with
    | .throwErr status =>
      if status = some 423 then
        (bumpNonce sess, sends ++ [mkSend sb (bumpNonce sess)], .error .banned)
      else if attempt = 5 then
        (bumpNonce sess, sends ++ [mkSend sb (bumpNonce sess)], .error .maxAttempts)
      else
        prLoop oracle endPoint sb fuel (attempt + 1) (bumpNonce sess) prev
          (sends ++ [mkSend sb (bumpNonce sess)])
    | .resp r =>
      if r.maintenance then
        (bumpNonce sess, sends ++ [mkSend sb (bumpNonce sess)], .error .maintenance)
      else if versionSkew r.serverVersion (bumpNonce sess).clientVersion endPoint then
        -- adopt the new version and bump the nonce again (lines 523–525)
        prLoop oracle endPoint sb fuel (attempt + 1)
          (adoptVersion (bumpNonce sess) ((r.serverVersion).getD "")) (some r)
          (sends ++ [mkSend sb (bumpNonce sess)])
      else
        (bumpNonce sess, sends ++ [mkSend sb (bumpNonce sess)], .ok (some r))

/-- Result of a `postRequest` call: final session, transmitted requests, and
the returned body's `response_data` or the thrown error. -/
structure PostResult where
  session : Session
  sends : List SendRecord
  result : Except GrisError (Option RData)
deriving Repr

/-- The pre-loop part of `postRequest` (lines 484–494): multipart body,
signature and headers, computed once.  The `Content-*` headers and
`X-Message-Code` are set only when `formData` is defined; `User-ID` only when
`session.userId` is truthy. -/
def mkSendBase (hmac : String → List Nat → String) (boundaryRand : String) (tsNow : Nat)
    (st : Statics) (sess : Session) (signKey : List Nat) (formData : Option String) :
    SendBase :=
  let mp := createMultipart boundaryRand (formData.getD "undefined")
  { headers := getHeaders st sess
    xMessageCode := formData.map (fun s => hmac s signKey)
    contentLength := formData.map (fun _ => mp.2.length)
    contentType := formData.map (fun _ => mp.1)
    userIdHeader := if sess.userId ≠ 0 then some (toString sess.userId) else none
    body := formData.map (fun _ => mp.2)
    tsNow := tsNow }

/-- The post-loop part of `postRequest` (lines 533–540): the `!response`
guard, then the body checks of `checkBody`. -/
def postProcess : Except GrisError (Option Resp) → Except GrisError (Option RData)
  | .error e => .error e
  | .ok none => .error .unableToConnect
  | .ok (some r) => checkBody r.responseData

/-- `postRequest` (lines 482–541).  `formData` is the already-serialized
`JSON.stringify(formData)` (`none` when `formData` is `undefined`); `hmac`
stands for `hmacSha1` and `boundaryRand` for the random boundary bytes. -/
def postRequest (hmac : String → List Nat → String) (boundaryRand : String) (tsNow : Nat)
    (oracle : Nat → Outcome) (st : Statics) (sess : Session)
    (endPoint : String) (signKey : List Nat) (formData : Option String) : PostResult :=
  let sb := mkSendBase hmac boundaryRand tsNow st sess signKey formData
  let out := prLoop oracle endPoint sb 5 1 sess none []
  { session := out.1, sends := out.2.1, result := postProcess out.2.2 }

/-! ## `APIRequest` (lines 351–378) -/

/-- A JavaScript object-field value as far as the envelope builder observes
it: absent property, `undefined`, `null`, number, or string. -/
inductive JsField where
  | absent
  | undefinedJs
  | nullV
  | num (n : Int)
  | str (s : String)
deriving DecidableEq, Repr

/-- `"field" in requestData`: property present (even with value `undefined`
or `null`). -/
def JsField.present : JsField → Bool
  | .absent => false
  | _ => true

/-- JavaScript truthiness of a field value (`requestData?.commandNum`). -/
def JsField.truthy : JsField → Bool
  | .num n => n ≠ 0
  | .str s => s ≠ ""
  | _ => false

/-- The caller-supplied `requestData` object: the five fields the envelope
builder reads or writes, plus the untouched remainder. -/
structure ReqData where
  module : JsField
  action : JsField
  timeStamp : JsField
  mgd : JsField
  commandNum : JsField
  extra : List (String × JsField)
deriving DecidableEq, Repr

/-- A fresh `requestData = {}`. -/
def emptyReqData : ReqData :=
  ⟨.absent, .absent, .absent, .absent, .absent, []⟩

/-- The command token `` `${loginKey}.${timeStamp()}.${commandNum}` ``. -/
def commandToken (kc : Keychain) (tsNow : Nat) (commandNum : Nat) : String :=
  kc.loginKey ++ "." ++ toString tsNow ++ "." ++ toString commandNum

/-- `endPointSplit[i]` after `endPoint.split("/")`: a string when the index
exists, `undefined` otherwise. -/
def jsIndexStr (l : List String) (i : Nat) : JsField :=
  match l.get? i with
  | some s => .str s
  | none => .undefinedJs

/-- Lines 362–372: the in-place mutation of `requestData` before sending.
The conditional re-stamps run first, then (unless suppressed) the default
fields are injected unconditionally, overwriting. -/
def apiEnvelope (kc : Keychain) (sess : Session) (endPoint : String)
    (rd : ReqData) (excludeDefaultValues : Bool) (tsNow : Nat) : ReqData :=
  let rd1 := if rd.timeStamp.present then { rd with timeStamp := .num tsNow } else rd
  let rd2 := if rd1.mgd.present then { rd1 with mgd := .num sess.mgd } else rd1
  let rd3 :=
    if rd2.commandNum.present then
      { rd2 with commandNum := .str (commandToken kc tsNow sess.commandNum) }
    else rd2
  if ¬ excludeDefaultValues then
    let parts := jsSplit endPoint '/' 
    { rd3 with
      module := jsIndexStr parts 0
      action := jsIndexStr parts 1
      timeStamp := .num tsNow
      mgd := .num sess.mgd
      commandNum := .str (commandToken kc tsNow sess.commandNum) }
  else rd3

/-- Rendering of a field value inside `JSON.stringify` (properties with value
`undefined` are skipped, like absent ones). -/
def JsField.render : JsField → Option String
  | .absent => none
  | .undefinedJs => none
  | .nullV => some "null"
  | .num n => some (toString n)
  | .str s => some ("\"" ++ s ++ "\"")

/-- `JSON.stringify(requestData)`.  Key order is fixed by the record; the
exact formatting is immaterial to the properties proved here — only that the
serialization is a function of the mutated object. -/
def encodeReqData (rd : ReqData) : String :=
  let fields := [("module", rd.module), ("action", rd.action),
    ("timeStamp", rd.timeStamp), ("mgd", rd.mgd), ("commandNum", rd.commandNum)] ++ rd.extra
  let parts := fields.filterMap
    (fun p => (JsField.render p.2).map (fun v => "\"" ++ p.1 ++ "\":" ++ v))
  "\x7b" ++ String.intercalate "," parts ++ "\x7d"

/-- UTF-8 bytes of a key string (the key material is ASCII). -/
def strBytes (s : String) : List Nat :=
  s.toList.map Char.toNat

/-- `s.slice(a, b)` for `a ≤ b` within bounds. -/
def jsSliceStr (s : String) (a b : Nat) : String :=
  String.mk ((s.toList.drop a).take (b - a))

/-- The special signing key of lines 356–359:
`xor(appKey[0:16], baseKey[16:32]) ‖ xor(appKey[16:32], baseKey[0:16])`. -/
def specialKey (kc : Keychain) : List Nat :=
  xor (strBytes (jsSliceStr kc.applicationKey 0 16)) (strBytes (jsSliceStr kc.baseKey 16 32)) ++
  xor (strBytes (jsSliceStr kc.applicationKey 16 32)) (strBytes (jsSliceStr kc.baseKey 0 16))

/-- `IAPIRequestOptions`. -/
structure APIRequestOptions where
  excludeDefaultValues : Bool
  useSpecialKey : Bool
deriving DecidableEq, Repr

/-- Result of an `APIRequest` call; `requestData` is the caller's own object
after the call (it is mutated in place in the source). -/
structure APIResult where
  session : Session
  sends : List SendRecord
  result : Except GrisError (Option RData)
  requestData : ReqData
deriving Repr

/-- The tail of `APIRequest` (lines 373–377): when `postRequest` threw, the
error propagates and no counter moves; on success, `commandNum` is
incremented iff the (mutated) request data's `commandNum` is truthy. -/
def apiFinish (pr : PostResult) (rd2 : ReqData) : APIResult :=
  match pr.result with
  | .error e => ⟨pr.session, pr.sends, .error e, rd2⟩
  | .ok rd =>
    if rd2.commandNum.truthy then
      ⟨{ pr.session with commandNum := pr.session.commandNum + 1 }, pr.sends, .ok rd, rd2⟩
    else
      ⟨pr.session, pr.sends, .ok rd, rd2⟩

/-- `APIRequest` (lines 351–378): select the signing key, mutate the request
data in place, post, then run the `commandNum` bookkeeping. -/
def APIRequest (hmac : String → List Nat → String) (boundaryRand : String) (tsNow : Nat)
    (oracle : Nat → Outcome) (gs : GrisState) (endPoint : String)
    (requestData : ReqData) (options : APIRequestOptions) : APIResult :=
  let signKey := if options.useSpecialKey then specialKey gs.keychain else gs.keychain.sessionKey
  let rd2 := apiEnvelope gs.keychain gs.session endPoint requestData options.excludeDefaultValues tsNow
  apiFinish
    (postRequest hmac boundaryRand tsNow oracle gs.statics gs.session endPoint signKey
      (some (encodeReqData rd2)))
    rd2

/-- `Except.isOk` specialised to call results ("the call did not throw"). -/
def isOkE (e : Except GrisError (Option RData)) : Bool :=
  match e with
  | .ok _ => true
  | .error _ => false

/-! ## Concrete scenarios

Fixed instantiations of the embedding parameters, used to evaluate the code
on specific inputs.  `hmacConst` is a stand-in HMAC (the transport never
inspects the digest), the boundary randomness is `""` and the clock is `0`. -/

def hmacConst : String → List Nat → String := fun _ _ => "00"

/-- A plain successful response. -/
def respOkPlain : Resp := ⟨false, none, some (.obj none)⟩

/-- A response whose `server-version` header (`"42.0"`) differs from the
default client version `"41.4"`. -/
def respSkew42 : Resp := ⟨false, some "42.0", some (.obj none)⟩

/-- A response whose body has no `response_data` field. -/
def respNoData : Resp := ⟨false, none, none⟩

def oracleAllOk : Nat → Outcome := fun _ => .resp respOkPlain

def oracleAllFail : Nat → Outcome := fun _ => .throwErr none

/-- Generic HTTP-500 failures on attempts 1–4, success on attempt 5. -/
def oracleFail4ThenOk : Nat → Outcome :=
  fun i => if i ≤ 4 then .throwErr (some 500) else .resp respOkPlain

/-- Generic HTTP-500 failures on attempts 1–4, a version-skewed response on
attempt 5. -/
def oracleFail4ThenSkew : Nat → Outcome :=
  fun i => if i ≤ 4 then .throwErr (some 500) else .resp respSkew42

/-- A version-skewed response on attempt 1, success afterwards. -/
def oracleSkewThenOk : Nat → Outcome :=
  fun i => if i = 1 then .resp respSkew42 else .resp respOkPlain

def oracleNoData : Nat → Outcome := fun _ => .resp respNoData

/-- A syntactically valid UUID-v4 login key. -/
def sampleLoginKey : String := "3fa85f64-5717-4562-b3fc-2c963f66afa6"

/-- 128 copies of `G`: alphanumeric (so it passes `[0-9A-Z]` under `/i`) but
not hexadecimal. -/
def gPasswd : String := String.mk (List.replicate 128 'G')

/-- A keychain holding the valid login key and the all-`G` passwd. -/
def gKeychain : Keychain :=
  { defaultKeychain with loginKey := sampleLoginKey, loginPasswd := gPasswd }

/-- A keychain whose passwd is too short. -/
def shortPasswdKeychain : Keychain :=
  { defaultKeychain with loginKey := sampleLoginKey, loginPasswd := "abc" }

/-- A fresh instance with default state. -/
def gsDefault : GrisState :=
  { session := defaultSession, keychain := defaultKeychain, statics := defaultStatics }

/-- A config with well-formed key material but malformed device credentials
(`loginKey`/`loginPasswd`). -/
def sampleConfig : Config :=
  { host := none
    gameModeOpt := none
    platformTypeOpt := none
    applicationIdOpt := none
    osVersionOpt := none
    loginKey := some "bad"
    loginPasswd := some "short"
    publicKey := String.mk (List.replicate 250 'K')
    baseKey := String.mk (List.replicate 32 'B')
    applicationKey := String.mk (List.replicate 32 'A') }

/-- A request data object with caller-supplied values in every injected
field, to observe the overwrite. -/
def callerReqData : ReqData :=
  ⟨.str "evil", .nullV, .num 99, .num 1, .str "mine", [("foo", .str "bar")]⟩

/-- An arbitrary send record (only used as the default of `List.getD`); its
`Client-Version` header is `"999"`, matching no real session. -/
def dummySend : SendRecord :=
  ⟨⟨getHeaders defaultStatics { defaultSession with clientVersion := "999" },
    none, none, none, none, none, 0⟩,
   getAuthorize 0 defaultSession⟩


/-! ## Basic facts about the state helpers -/

@[simp]
theorem bumpNonce_nonce (sess : Session) : (bumpNonce sess).nonce = sess.nonce + 1 := rfl

@[simp]
theorem bumpNonce_commandNum (sess : Session) :
    (bumpNonce sess).commandNum = sess.commandNum := rfl

@[simp]
theorem bumpNonce_clientVersion (sess : Session) :
    (bumpNonce sess).clientVersion = sess.clientVersion := rfl

@[simp]
theorem adoptVersion_nonce (sess : Session) (v : String) :
    (adoptVersion sess v).nonce = sess.nonce + 1 := rfl

@[simp]
theorem adoptVersion_commandNum (sess : Session) (v : String) :
    (adoptVersion sess v).commandNum = sess.commandNum := rfl

@[simp]
theorem adoptVersion_clientVersion (sess : Session) (v : String) :
    (adoptVersion sess v).clientVersion = v := rfl

@[simp]
theorem mkSend_base (sb : SendBase) (sess : Session) : (mkSend sb sess).base = sb := rfl

@[simp]
theorem mkSend_nonce (sb : SendBase) (sess : Session) :
    (mkSend sb sess).authorize.nonce = sess.nonce := rfl

/-! ## Step equations of the retry loop -/

theorem prLoop_zero (oracle : Nat → Outcome) (ep : String) (sb : SendBase)
    (attempt : Nat) (sess : Session) (prev : Option Resp) (sends : List SendRecord) :
    prLoop oracle ep sb 0 attempt sess prev sends = (sess, sends, .ok prev) := rfl

theorem prLoop_banned (oracle : Nat → Outcome) (ep : String) (sb : SendBase)
    (fuel attempt : Nat) (sess : Session) (prev : Option Resp) (sends : List SendRecord)
    (ho : oracle attempt = .throwErr (some 423)) :
    prLoop oracle ep sb (fuel + 1) attempt sess prev sends =
      (bumpNonce sess, sends ++ [mkSend sb (bumpNonce sess)], .error .banned) := by
  simp [prLoop, ho]

theorem prLoop_maxAttempts (oracle : Nat → Outcome) (ep : String) (sb : SendBase)
    (fuel : Nat) (status : Option Nat) (sess : Session) (prev : Option Resp)
    (sends : List SendRecord)
    (ho : oracle 5 = .throwErr status) (h423 : status ≠ some 423) :
    prLoop oracle ep sb (fuel + 1) 5 sess prev sends =
      (bumpNonce sess, sends ++ [mkSend sb (bumpNonce sess)], .error .maxAttempts) := by
  simp [prLoop, ho, h423]

theorem prLoop_retry (oracle : Nat → Outcome) (ep : String) (sb : SendBase)
    (fuel attempt : Nat) (status : Option Nat) (sess : Session) (prev : Option Resp)
    (sends : List SendRecord)
    (ho : oracle attempt = .throwErr status) (h423 : status ≠ some 423) (h5 : attempt ≠ 5) :
    prLoop oracle ep sb (fuel + 1) attempt sess prev sends =
      prLoop oracle ep sb fuel (attempt + 1) (bumpNonce sess) prev
        (sends ++ [mkSend sb (bumpNonce sess)]) := by
  simp [prLoop, ho, h423, h5]

theorem prLoop_maintenance (oracle : Nat → Outcome) (ep : String) (sb : SendBase)
    (fuel attempt : Nat) (r : Resp) (sess : Session) (prev : Option Resp)
    (sends : List SendRecord)
    (ho : oracle attempt = .resp r) (hmt : r.maintenance = true) :
    prLoop oracle ep sb (fuel + 1) attempt sess prev sends =
      (bumpNonce sess, sends ++ [mkSend sb (bumpNonce sess)], .error .maintenance) := by
  simp [prLoop, ho, hmt]

theorem prLoop_skew (oracle : Nat → Outcome) (ep : String) (sb : SendBase)
    (fuel attempt : Nat) (r : Resp) (sess : Session) (prev : Option Resp)
    (sends : List SendRecord)
    (ho : oracle attempt = .resp r) (hmt : r.maintenance = false)
    (hsk : versionSkew r.serverVersion sess.clientVersion ep = true) :
    prLoop oracle ep sb (fuel + 1) attempt sess prev sends =
      prLoop oracle ep sb fuel (attempt + 1)
        (adoptVersion (bumpNonce sess) ((r.serverVersion).getD "")) (some r)
        (sends ++ [mkSend sb (bumpNonce sess)]) := by
  simp [prLoop, ho, hmt, hsk]

theorem prLoop_ok (oracle : Nat → Outcome) (ep : String) (sb : SendBase)
    (fuel attempt : Nat) (r : Resp) (sess : Session) (prev : Option Resp)
    (sends : List SendRecord)
    (ho : oracle attempt = .resp r) (hmt : r.maintenance = false)
    (hsk : versionSkew r.serverVersion sess.clientVersion ep = false) :
    prLoop oracle ep sb (fuel + 1) attempt sess prev sends =
      (bumpNonce sess, sends ++ [mkSend sb (bumpNonce sess)], .ok (some r)) := by
  simp [prLoop, ho, hmt, hsk]

/-! ## Loop invariants -/

/-- Invariant of the retry loop: it appends between 1 and `fuel` transmitted
requests (at least 1 as soon as any fuel is left); every transmitted request
reuses the precomputed `SendBase` unchanged; the nonces of the transmitted
requests are strictly increasing, all strictly above the entry nonce and at
most the exit nonce; and `commandNum` is untouched. -/
theorem prLoop_spec (oracle : Nat → Outcome) (ep : String) (sb : SendBase) :
    ∀ (fuel attempt : Nat) (sess : Session) (prev : Option Resp) (sends : List SendRecord),
      ∃ news : List SendRecord,
        (prLoop oracle ep sb fuel attempt sess prev sends).2.1 = sends ++ news ∧
        news.length ≤ fuel ∧
        (fuel ≠ 0 → news ≠ []) ∧
        sess.nonce ≤ (prLoop oracle ep sb fuel attempt sess prev sends).1.nonce ∧
        (prLoop oracle ep sb fuel attempt sess prev sends).1.commandNum = sess.commandNum ∧
        (∀ r ∈ news, r.base = sb ∧ sess.nonce < r.authorize.nonce ∧
          r.authorize.nonce ≤ (prLoop oracle ep sb fuel attempt sess prev sends).1.nonce) ∧
        news.Pairwise (fun a b => a.authorize.nonce < b.authorize.nonce) := by
  intro fuel
  induction fuel with
  | zero =>
    intro attempt sess prev sends
    refine ⟨[], ?_, ?_, ?_, ?_, ?_, ?_, ?_⟩ <;> simp [prLoop_zero]
  | succ fuel ih =>
    intro attempt sess prev sends
    have terminal : ∃ news : List SendRecord,
        sends ++ [mkSend sb (bumpNonce sess)] = sends ++ news ∧
        news.length ≤ fuel + 1 ∧
        (fuel + 1 ≠ 0 → news ≠ []) ∧
        sess.nonce ≤ (bumpNonce sess).nonce ∧
        (bumpNonce sess).commandNum = sess.commandNum ∧
        (∀ r ∈ news, r.base = sb ∧ sess.nonce < r.authorize.nonce ∧
          r.authorize.nonce ≤ (bumpNonce sess).nonce) ∧
        news.Pairwise (fun a b => a.authorize.nonce < b.authorize.nonce) := by
      refine ⟨[mkSend sb (bumpNonce sess)], rfl, by simp, by simp,
        by simp only [bumpNonce_nonce]; omega, rfl, ?_, by simp⟩
      intro q hq
      rw [List.mem_singleton] at hq
      subst hq
      refine ⟨rfl, ?_, le_refl _⟩
      simp only [mkSend_nonce, bumpNonce_nonce]
      omega
    have recur : ∀ (sess1 : Session) (prev1 : Option Resp),
        sess.nonce + 1 ≤ sess1.nonce → sess1.commandNum = sess.commandNum →
        ∃ news : List SendRecord,
          (prLoop oracle ep sb fuel (attempt + 1) sess1 prev1
              (sends ++ [mkSend sb (bumpNonce sess)])).2.1 = sends ++ news ∧
          news.length ≤ fuel + 1 ∧
          (fuel + 1 ≠ 0 → news ≠ []) ∧
          sess.nonce ≤ (prLoop oracle ep sb fuel (attempt + 1) sess1 prev1
              (sends ++ [mkSend sb (bumpNonce sess)])).1.nonce ∧
          (prLoop oracle ep sb fuel (attempt + 1) sess1 prev1
              (sends ++ [mkSend sb (bumpNonce sess)])).1.commandNum = sess.commandNum ∧
          (∀ r ∈ news, r.base = sb ∧ sess.nonce < r.authorize.nonce ∧
            r.authorize.nonce ≤ (prLoop oracle ep sb fuel (attempt + 1) sess1 prev1
              (sends ++ [mkSend sb (bumpNonce sess)])).1.nonce) ∧
          news.Pairwise (fun a b => a.authorize.nonce < b.authorize.nonce) := by
      intro sess1 prev1 hord hcm
      obtain ⟨news, hsends, hlen, _hne, hnonce, hcmd, hmem, hpw⟩ :=
        ih (attempt + 1) sess1 prev1 (sends ++ [mkSend sb (bumpNonce sess)])
      refine ⟨mkSend sb (bumpNonce sess) :: news, ?_, ?_, ?_, ?_, ?_, ?_, ?_⟩
      · rw [hsends, List.append_assoc, List.singleton_append]
      · simpa using Nat.succ_le_succ hlen
      · simp
      · omega
      · rw [hcmd, hcm]
      · intro q hq
        rcases List.mem_cons.mp hq with h | h
        · subst h
          refine ⟨rfl, ?_, ?_⟩
          · simp only [mkSend_nonce, bumpNonce_nonce]
            omega
          · simp only [mkSend_nonce, bumpNonce_nonce]
            omega
        · obtain ⟨hb, hql, hqu⟩ := hmem q h
          exact ⟨hb, by omega, hqu⟩
      · refine List.pairwise_cons.mpr ⟨?_, hpw⟩
        intro q hq
        obtain ⟨_, hql, _⟩ := hmem q hq
        simp only [mkSend_nonce, bumpNonce_nonce]
        omega
    cases ho : oracle attempt with
    | throwErr status =>
      by_cases h423 : status = some 423
      · subst h423
        rw [prLoop_banned oracle ep sb fuel attempt sess prev sends ho]
        exact terminal
      · by_cases h5 : attempt = 5
        · subst h5
          rw [prLoop_maxAttempts oracle ep sb fuel status sess prev sends ho h423]
          exact terminal
        · rw [prLoop_retry oracle ep sb fuel attempt status sess prev sends ho h423 h5]
          exact recur (bumpNonce sess) prev (by simp) (by simp)
    | resp r =>
      by_cases hmt : r.maintenance
      · rw [prLoop_maintenance oracle ep sb fuel attempt r sess prev sends ho hmt]
        exact terminal
      · by_cases hsk : versionSkew r.serverVersion sess.clientVersion ep
        · rw [prLoop_skew oracle ep sb fuel attempt r sess prev sends ho
            (by simpa using hmt) hsk]
          exact recur (adoptVersion (bumpNonce sess) ((r.serverVersion).getD "")) (some r)
            (by simp only [adoptVersion_nonce, bumpNonce_nonce]; omega) (by simp)
        · rw [prLoop_ok oracle ep sb fuel attempt r sess prev sends ho
            (by simpa using hmt) (by simpa using hsk)]
          exact terminal


/-! ## `postRequest` projections -/

theorem postRequest_session (hmac : String → List Nat → String) (brand : String) (tsNow : Nat)
    (oracle : Nat → Outcome) (st : Statics) (sess : Session) (ep : String)
    (signKey : List Nat) (fd : Option String) :
    (postRequest hmac brand tsNow oracle st sess ep signKey fd).session =
      (prLoop oracle ep (mkSendBase hmac brand tsNow st sess signKey fd) 5 1 sess none []).1 :=
  rfl

theorem postRequest_sends (hmac : String → List Nat → String) (brand : String) (tsNow : Nat)
    (oracle : Nat → Outcome) (st : Statics) (sess : Session) (ep : String)
    (signKey : List Nat) (fd : Option String) :
    (postRequest hmac brand tsNow oracle st sess ep signKey fd).sends =
      (prLoop oracle ep (mkSendBase hmac brand tsNow st sess signKey fd) 5 1 sess none []).2.1 :=
  rfl

theorem postRequest_result (hmac : String → List Nat → String) (brand : String) (tsNow : Nat)
    (oracle : Nat → Outcome) (st : Statics) (sess : Session) (ep : String)
    (signKey : List Nat) (fd : Option String) :
    (postRequest hmac brand tsNow oracle st sess ep signKey fd).result =
      postProcess (prLoop oracle ep (mkSendBase hmac brand tsNow st sess signKey fd) 5 1 sess none []).2.2 :=
  rfl

theorem postRequest_commandNum (hmac : String → List Nat → String) (brand : String) (tsNow : Nat)
    (oracle : Nat → Outcome) (st : Statics) (sess : Session) (ep : String)
    (signKey : List Nat) (fd : Option String) :
    (postRequest hmac brand tsNow oracle st sess ep signKey fd).session.commandNum =
      sess.commandNum := by
  obtain ⟨_, _, _, _, _, hcmd, _, _⟩ :=
    prLoop_spec oracle ep (mkSendBase hmac brand tsNow st sess signKey fd) 5 1 sess none []
  rw [postRequest_session]
  exact hcmd

/-- C5: every request transmitted during a `postRequest` call carries a nonce
strictly greater than the nonce of the previous transmitted request and than
the entry nonce, and at most the exit nonce — so nonces never repeat, within
a call and across successive calls of one client. -/
theorem nonce_strictly_increasing
    (hmac : String → List Nat → String) (brand : String) (tsNow : Nat)
    (oracle : Nat → Outcome) (st : Statics) (sess : Session) (ep : String)
    (signKey : List Nat) (fd : Option String) :
    (postRequest hmac brand tsNow oracle st sess ep signKey fd).sends.Pairwise
      (fun a b => a.authorize.nonce < b.authorize.nonce) ∧
    ∀ r ∈ (postRequest hmac brand tsNow oracle st sess ep signKey fd).sends,
      sess.nonce < r.authorize.nonce ∧
      r.authorize.nonce ≤ (postRequest hmac brand tsNow oracle st sess ep signKey fd).session.nonce := by
  obtain ⟨news, hsends, _, _, _, _, hmem, hpw⟩ :=
    prLoop_spec oracle ep (mkSendBase hmac brand tsNow st sess signKey fd) 5 1 sess none []
  rw [postRequest_sends, postRequest_session, hsends, List.nil_append]
  exact ⟨hpw, fun r hr => ⟨(hmem r hr).2.1, (hmem r hr).2.2⟩⟩

set_option maxRecDepth 4000 in
theorem nonce_strictly_increasing_witness :
    defaultSession.nonce <
      ((postRequest hmacConst "" 0 oracleAllOk defaultStatics defaultSession "user/userInfo"
        [] (some "rb")).sends.getD 0 dummySend).authorize.nonce := by
  have h := (nonce_strictly_increasing hmacConst "" 0 oracleAllOk defaultStatics defaultSession
    "user/userInfo" [] (some "rb")).2
  exact (h _ (by decide)).1

/-! ## `APIRequest` bookkeeping lemmas -/

theorem APIRequest_eq (hmac : String → List Nat → String) (brand : String) (ts : Nat)
    (oracle : Nat → Outcome) (gs : GrisState) (ep : String) (rd : ReqData)
    (opts : APIRequestOptions) :
    APIRequest hmac brand ts oracle gs ep rd opts =
      apiFinish
        (postRequest hmac brand ts oracle gs.statics gs.session ep
          (if opts.useSpecialKey then specialKey gs.keychain else gs.keychain.sessionKey)
          (some (encodeReqData
            (apiEnvelope gs.keychain gs.session ep rd opts.excludeDefaultValues ts))))
        (apiEnvelope gs.keychain gs.session ep rd opts.excludeDefaultValues ts) :=
  rfl

theorem apiFinish_result (pr : PostResult) (rd2 : ReqData) :
    (apiFinish pr rd2).result = pr.result := by
  cases hr : pr.result with
  | error e => simp [apiFinish, hr]
  | ok rd => by_cases ht : rd2.commandNum.truthy <;> simp [apiFinish, hr, ht]

theorem apiFinish_sends (pr : PostResult) (rd2 : ReqData) :
    (apiFinish pr rd2).sends = pr.sends := by
  cases hr : pr.result with
  | error e => simp [apiFinish, hr]
  | ok rd => by_cases ht : rd2.commandNum.truthy <;> simp [apiFinish, hr, ht]

theorem apiFinish_requestData (pr : PostResult) (rd2 : ReqData) :
    (apiFinish pr rd2).requestData = rd2 := by
  cases hr : pr.result with
  | error e => simp [apiFinish, hr]
  | ok rd => by_cases ht : rd2.commandNum.truthy <;> simp [apiFinish, hr, ht]

theorem apiFinish_commandNum (pr : PostResult) (rd2 : ReqData) :
    (apiFinish pr rd2).session.commandNum =
      if isOkE pr.result && rd2.commandNum.truthy then pr.session.commandNum + 1
      else pr.session.commandNum := by
  cases hr : pr.result with
  | error e => simp [apiFinish, hr, isOkE]
  | ok rd => by_cases ht : rd2.commandNum.truthy <;> simp [apiFinish, hr, ht, isOkE]

theorem commandToken_ne_empty (kc : Keychain) (ts n : Nat) :
    commandToken kc ts n ≠ "" := by
  intro h
  have hl := congrArg String.length h
  have hdot : (".").length = 1 := rfl
  simp only [commandToken, String.length_append, hdot, String.length_empty] at hl
  omega

/-- The mutated request data carries either no `commandNum` property at all,
or exactly the command token string. -/
theorem apiEnvelope_commandNum_cases (kc : Keychain) (sess : Session) (ep : String)
    (rd : ReqData) (excl : Bool) (ts : Nat) :
    (apiEnvelope kc sess ep rd excl ts).commandNum = JsField.absent ∨
    (apiEnvelope kc sess ep rd excl ts).commandNum =
      .str (commandToken kc ts sess.commandNum) := by
  rcases rd with ⟨m, a, t, g, c, ex⟩
  cases excl <;> cases c <;>
    simp [apiEnvelope, JsField.present] <;>
    split_ifs <;> simp_all [JsField.present]


/-- C4: `session.commandNum` increases by exactly 1 when the call succeeded
and the sent (mutated) request data carried a `commandNum` property — which
is then always the command token — and is unchanged when the call threw or
the envelope omitted the property. -/
theorem commandNum_increment_iff
    (hmac : String → List Nat → String) (brand : String) (ts : Nat) (oracle : Nat → Outcome)
    (gs : GrisState) (ep : String) (rd : ReqData) (opts : APIRequestOptions) :
    (isOkE (APIRequest hmac brand ts oracle gs ep rd opts).result = true ∧
        (apiEnvelope gs.keychain gs.session ep rd opts.excludeDefaultValues ts).commandNum ≠
          JsField.absent →
      (APIRequest hmac brand ts oracle gs ep rd opts).session.commandNum =
        gs.session.commandNum + 1) ∧
    (isOkE (APIRequest hmac brand ts oracle gs ep rd opts).result = false ∨
        (apiEnvelope gs.keychain gs.session ep rd opts.excludeDefaultValues ts).commandNum =
          JsField.absent →
      (APIRequest hmac brand ts oracle gs ep rd opts).session.commandNum =
        gs.session.commandNum) := by
  have hpr := postRequest_commandNum hmac brand ts oracle gs.statics gs.session ep
    (if opts.useSpecialKey then specialKey gs.keychain else gs.keychain.sessionKey)
    (some (encodeReqData (apiEnvelope gs.keychain gs.session ep rd opts.excludeDefaultValues ts)))
  rw [APIRequest_eq, apiFinish_commandNum, apiFinish_result]
  constructor
  · rintro ⟨hok, hne⟩
    rcases apiEnvelope_commandNum_cases gs.keychain gs.session ep rd
        opts.excludeDefaultValues ts with hc | hc
    · exact absurd hc hne
    · rw [hc] at *
      have htr : (JsField.str (commandToken gs.keychain ts gs.session.commandNum)).truthy = true := by
        simp [JsField.truthy, commandToken_ne_empty]
      rw [hok, htr] at *
      simpa using hpr
  · rintro (hfail | habs)
    · rw [hfail]
      simpa using hpr
    · rw [habs]
      have : (JsField.absent).truthy = false := rfl
      rw [this]
      simpa using hpr

theorem commandNum_increment_iff_witness :
    (APIRequest hmacConst "" 0 oracleAllOk gsDefault "user/userInfo" emptyReqData
        ⟨false, false⟩).session.commandNum = gsDefault.session.commandNum + 1 := by
  refine (commandNum_increment_iff hmacConst "" 0 oracleAllOk gsDefault "user/userInfo"
    emptyReqData ⟨false, false⟩).1 ⟨?_, ?_⟩
  · rfl
  · decide


/-- Auxiliary: when every attempt before the 5th fails with a generic
(non-423) transport error, the loop walks through all its fuel, transmitting
once per attempt, and the 5th attempt decides the outcome. -/
theorem prLoop_genericFail (oracle : Nat → Outcome) (ep : String) (sb : SendBase) :
    ∀ (fuel attempt : Nat) (sess : Session) (prev : Option Resp) (sends : List SendRecord),
      attempt + fuel = 6 → 1 ≤ fuel →
      (∀ i, attempt ≤ i → i < 5 → ∃ s, oracle i = .throwErr s ∧ s ≠ some 423) →
      (prLoop oracle ep sb fuel attempt sess prev sends).2.1.length = sends.length + fuel ∧
      ((∃ s, oracle 5 = .throwErr s ∧ s ≠ some 423) →
        (prLoop oracle ep sb fuel attempt sess prev sends).2.2 = .error .maxAttempts) ∧
      (∀ r, oracle 5 = .resp r → r.maintenance = false →
        versionSkew r.serverVersion sess.clientVersion ep = false →
        (prLoop oracle ep sb fuel attempt sess prev sends).2.2 = .ok (some r)) := by
  intro fuel
  induction fuel with
  | zero =>
    intro attempt sess prev sends _ h1f
    omega
  | succ fuel ih =>
    intro attempt sess prev sends h6 _ hfail
    by_cases h5 : attempt = 5
    · subst h5
      have hf0 : fuel = 0 := by omega
      subst hf0
      refine ⟨?_, ?_, ?_⟩
      · cases ho : oracle 5 with
        | throwErr status =>
          by_cases h423 : status = some 423
          · subst h423
            rw [prLoop_banned oracle ep sb 0 5 sess prev sends ho]
            simp
          · rw [prLoop_maxAttempts oracle ep sb 0 status sess prev sends ho h423]
            simp
        | resp r =>
          by_cases hmt : r.maintenance
          · rw [prLoop_maintenance oracle ep sb 0 5 r sess prev sends ho hmt]
            simp
          · by_cases hsk : versionSkew r.serverVersion sess.clientVersion ep
            · rw [prLoop_skew oracle ep sb 0 5 r sess prev sends ho (by simpa using hmt) hsk,
                prLoop_zero]
              simp
            · rw [prLoop_ok oracle ep sb 0 5 r sess prev sends ho (by simpa using hmt)
                (by simpa using hsk)]
              simp
      · rintro ⟨s, ho, hs⟩
        rw [prLoop_maxAttempts oracle ep sb 0 s sess prev sends ho hs]
      · intro r ho hmt hsk
        rw [prLoop_ok oracle ep sb 0 5 r sess prev sends ho hmt hsk]
    · obtain ⟨s, ho, hs⟩ := hfail attempt (le_refl _) (by omega)
      rw [prLoop_retry oracle ep sb fuel attempt s sess prev sends ho hs h5]
      have hrec := ih (attempt + 1) (bumpNonce sess) prev
        (sends ++ [mkSend sb (bumpNonce sess)]) (by omega) (by omega)
        (fun i hi h5i => hfail i (by omega) h5i)
      refine ⟨?_, hrec.2.1, ?_⟩
      · rw [hrec.1, List.length_append]
        simp
        omega
      · intro r ho5 hmt hsk
        exact hrec.2.2 r ho5 hmt (by simpa using hsk)

/-- C6: with generic (non-423) transport failures on attempts 1–4 and a clean
success on attempt 5, the call makes exactly 5 physical attempts and returns
the payload; with generic failures on all 5 attempts it terminates with the
max-attempts error on the 5th. -/
theorem five_attempt_budget
    (hmac : String → List Nat → String) (brand : String) (ts : Nat)
    (oracle1 oracle2 : Nat → Outcome) (st : Statics) (sess : Session) (ep : String)
    (signKey : List Nat) (fd : Option String) (r : Resp) (ec : Option Int)
    (hf : ∀ i, 1 ≤ i → i ≤ 4 → ∃ s, oracle1 i = .throwErr s ∧ s ≠ some 423)
    (h5 : oracle1 5 = .resp r) (hmt : r.maintenance = false)
    (hsk : versionSkew r.serverVersion sess.clientVersion ep = false)
    (hrd : r.responseData = some (RData.obj ec)) (hec : ec ≠ some 407)
    (hf2 : ∀ i, 1 ≤ i → i ≤ 5 → ∃ s, oracle2 i = .throwErr s ∧ s ≠ some 423) :
    ((postRequest hmac brand ts oracle1 st sess ep signKey fd).result = .ok r.responseData ∧
      (postRequest hmac brand ts oracle1 st sess ep signKey fd).sends.length = 5) ∧
    ((postRequest hmac brand ts oracle2 st sess ep signKey fd).result = .error .maxAttempts ∧
      (postRequest hmac brand ts oracle2 st sess ep signKey fd).sends.length = 5) := by
  have ha := prLoop_genericFail oracle1 ep (mkSendBase hmac brand ts st sess signKey fd)
    5 1 sess none [] (by omega) (by omega) (fun i hi1 hi5 => hf i hi1 (by omega))
  have hb := prLoop_genericFail oracle2 ep (mkSendBase hmac brand ts st sess signKey fd)
    5 1 sess none [] (by omega) (by omega) (fun i hi1 hi5 => hf2 i hi1 (by omega))
  refine ⟨⟨?_, ?_⟩, ⟨?_, ?_⟩⟩
  · rw [postRequest_result, ha.2.2 r h5 hmt hsk]
    simp [postProcess, checkBody, rdErrorCode, rdFalsy, hrd, hec]
  · rw [postRequest_sends, ha.1]
    simp
  · obtain ⟨t5, go5, gn5⟩ := hf2 5 (by omega) (by omega)
    rw [postRequest_result, hb.2.1 ⟨t5, go5, gn5⟩]
    rfl
  · rw [postRequest_sends, hb.1]
    simp

theorem five_attempt_budget_witness :
    ((postRequest hmacConst "" 0 oracleFail4ThenOk defaultStatics defaultSession "user/userInfo"
        [] (some "rb")).result = .ok respOkPlain.responseData ∧
     (postRequest hmacConst "" 0 oracleFail4ThenOk defaultStatics defaultSession "user/userInfo"
        [] (some "rb")).sends.length = 5) ∧
    ((postRequest hmacConst "" 0 oracleAllFail defaultStatics defaultSession "user/userInfo"
        [] (some "rb")).result = .error .maxAttempts ∧
     (postRequest hmacConst "" 0 oracleAllFail defaultStatics defaultSession "user/userInfo"
        [] (some "rb")).sends.length = 5) :=
  five_attempt_budget hmacConst "" 0 oracleFail4ThenOk oracleAllFail defaultStatics
    defaultSession "user/userInfo" [] (some "rb") respOkPlain none
    (fun i _ h4 => ⟨some 500, by simp [oracleFail4ThenOk, h4], by decide⟩)
    rfl rfl rfl rfl (by decide)
    (fun i _ _ => ⟨none, rfl, by decide⟩)

set_option maxRecDepth 8000 in
/-- C1 counterexample: generic failures on attempts 1–4 and a version-skewed
response on attempt 5.  Were the claim true — a version-skew resend leaving
the 5-attempt budget untouched — the adopted version would be followed by a
6th physical send; instead the skew `continue` advances the same loop counter
past its bound, so the call stops at 5 sends and returns the
version-mismatched 5th response after merely adopting the new version. -/
theorem versionSkew_budget_counterexample :
    (postRequest hmacConst "" 0 oracleFail4ThenSkew defaultStatics defaultSession "user/userInfo"
        [] (some "rb")).sends.length = 5 ∧
    (postRequest hmacConst "" 0 oracleFail4ThenSkew defaultStatics defaultSession "user/userInfo"
        [] (some "rb")).session.clientVersion = "42.0" ∧
    (postRequest hmacConst "" 0 oracleFail4ThenSkew defaultStatics defaultSession "user/userInfo"
        [] (some "rb")).result = .ok (some (RData.obj none)) :=
  ⟨rfl, rfl, rfl⟩

/-- C1 (amended): on a non-login call, a response with a differing
`server-version` header makes the transport adopt the new version and resend
— but the resend consumes one of the same 5 physical-attempt slots that
network failures consume: after a skew on the first attempt the loop
continues with one unit of fuel less, and the total number of physical sends
in a logical call never exceeds 5. -/
theorem versionSkew_consumes_attempt_slot
    (hmac : String → List Nat → String) (brand : String) (ts : Nat)
    (oracle : Nat → Outcome) (st : Statics) (sess : Session) (ep : String)
    (signKey : List Nat) (fd : Option String) (r : Resp)
    (h1 : oracle 1 = .resp r) (hmt : r.maintenance = false)
    (hsk : versionSkew r.serverVersion sess.clientVersion ep = true) :
    (postRequest hmac brand ts oracle st sess ep signKey fd).sends.length ≤ 5 ∧
    2 ≤ (postRequest hmac brand ts oracle st sess ep signKey fd).sends.length ∧
    prLoop oracle ep (mkSendBase hmac brand ts st sess signKey fd) 5 1 sess none [] =
      prLoop oracle ep (mkSendBase hmac brand ts st sess signKey fd) 4 2
        (adoptVersion (bumpNonce sess) ((r.serverVersion).getD "")) (some r)
        [mkSend (mkSendBase hmac brand ts st sess signKey fd) (bumpNonce sess)] := by
  have hstep5 : prLoop oracle ep (mkSendBase hmac brand ts st sess signKey fd) 5 1 sess none [] =
      prLoop oracle ep (mkSendBase hmac brand ts st sess signKey fd) 4 2
        (adoptVersion (bumpNonce sess) ((r.serverVersion).getD "")) (some r)
        [mkSend (mkSendBase hmac brand ts st sess signKey fd) (bumpNonce sess)] := by
    have hstep := prLoop_skew oracle ep (mkSendBase hmac brand ts st sess signKey fd)
      4 1 r sess none [] h1 hmt hsk
    rw [List.nil_append] at hstep
    exact hstep
  refine ⟨?_, ?_, hstep5⟩
  · obtain ⟨news, hsends, hlen, _, _, _, _, _⟩ :=
      prLoop_spec oracle ep (mkSendBase hmac brand ts st sess signKey fd) 5 1 sess none []
    rw [postRequest_sends, hsends, List.nil_append]
    exact hlen
  · rw [postRequest_sends, hstep5]
    obtain ⟨news, hsends, _, hne, _, _, _, _⟩ :=
      prLoop_spec oracle ep (mkSendBase hmac brand ts st sess signKey fd) 4 2
        (adoptVersion (bumpNonce sess) ((r.serverVersion).getD "")) (some r)
        [mkSend (mkSendBase hmac brand ts st sess signKey fd) (bumpNonce sess)]
    rw [hsends, List.length_append]
    rcases news with _ | ⟨x, xs⟩
    · exact absurd rfl (hne (by omega))
    · simp only [List.length_singleton, List.length_cons]
      omega

set_option maxRecDepth 8000 in
theorem versionSkew_consumes_attempt_slot_witness :
    2 ≤ (postRequest hmacConst "" 0 oracleSkewThenOk defaultStatics defaultSession
        "user/userInfo" [] (some "rb")).sends.length :=
  (versionSkew_consumes_attempt_slot hmacConst "" 0 oracleSkewThenOk defaultStatics
    defaultSession "user/userInfo" [] (some "rb") respSkew42 rfl rfl rfl).2.1


/-- C2 (code evidence): a response whose body lacks `response_data` makes the
call fail with the JavaScript TypeError raised by line 537's
`responseBody.response_data.error_code` dereference, not with the
malformed-response error of line 539 — the dedicated check is dead for the
absent-field case because it runs after the dereference. -/
theorem missing_response_data_typeError :
    (postRequest hmacConst "" 0 oracleNoData defaultStatics defaultSession "user/userInfo"
        [] (some "rb")).result = .error .typeErrorResponseData ∧
    checkBody none = .error .typeErrorResponseData ∧
    checkBody none ≠ .error .invalidResponse := by
  refine ⟨rfl, rfl, ?_⟩
  intro h
  simp [checkBody, rdErrorCode] at h

set_option maxRecDepth 8000 in
/-- C3 counterexample: 128 `G`s — not hexadecimal, yet accepted by `login()`'s
validation, because the source regex class is `[0-9A-Z]` under `/i`
(alphanumeric), not `[0-9A-F]`. -/
theorem login_passwd_hex_counterexample :
    loginPrecheck gKeychain = .ok () ∧
    gPasswd.length = 128 ∧
    gPasswd.toList.all isHexCharJs = false :=
  ⟨rfl, rfl, rfl⟩

/-- C3 (amended): the `login()` prologue — run before the first `await`,
hence before any network traffic — throws an authentication error whenever
the stored `loginPasswd` fails the source check: exactly 128 characters, all
alphanumeric (`[0-9A-Za-z]`).  Non-hex alphanumeric passwords pass. -/
theorem login_passwd_alnum_check (kc : Keychain)
    (h : loginPasswdCheck kc.loginPasswd = false) :
    loginPrecheck kc ≠ .ok () ∧
    (loginKeyCheck kc.loginKey = true → loginPrecheck kc = .error .invalidLoginPasswd) := by
  constructor
  · intro hok
    by_cases hk : loginKeyCheck kc.loginKey
    · simp [loginPrecheck, hk, h] at hok
    · simp [loginPrecheck, hk] at hok
  · intro hk
    simp [loginPrecheck, hk, h]

theorem login_passwd_alnum_check_witness :
    loginPrecheck shortPasswdKeychain = .error .invalidLoginPasswd :=
  (login_passwd_alnum_check shortPasswdKeychain rfl).2 rfl

/-- C7: `xor` truncates to the shorter operand, and on equal-length operands
xoring twice with the same operand restores the first. -/
theorem xor_length_involution :
    (∀ a b : List Nat, (xor a b).length = min a.length b.length) ∧
    (∀ a b : List Nat, a.length = b.length → xor (xor a b) b = a) := by
  constructor
  · intro a b
    simp [xor]
  · intro a
    induction a with
    | nil => intro b _; rfl
    | cons x xs ih =>
      intro b hb
      cases b with
      | nil => simp at hb
      | cons y ys =>
        simp only [xor, List.zipWith_cons_cons, List.cons.injEq]
        exact ⟨Nat.xor_cancel_right y x, ih ys (by simpa using hb)⟩

theorem xor_length_involution_witness :
    (xor [1, 2, 250] [7, 5, 3]).length = min [1, 2, 250].length [7, 5, 3].length ∧
    xor (xor [1, 2, 250] [7, 5, 3]) [7, 5, 3] = [1, 2, 250] :=
  ⟨xor_length_involution.1 [1, 2, 250] [7, 5, 3],
   xor_length_involution.2 [1, 2, 250] [7, 5, 3] rfl⟩

/-- C8: `APIRequest` mutates the caller's `requestData` in place (the
embedding returns the mutated object as `requestData`): with default-field
injection not suppressed, after the call the caller's object holds the
injected `module`, `action`, `timeStamp`, `mgd` and `commandNum` values,
overwriting whatever the caller stored there, while the remaining properties
are untouched. -/
theorem apiRequest_mutates_request_data
    (hmac : String → List Nat → String) (brand : String) (ts : Nat) (oracle : Nat → Outcome)
    (gs : GrisState) (ep : String) (rd : ReqData) (opts : APIRequestOptions)
    (h : opts.excludeDefaultValues = false) :
    (APIRequest hmac brand ts oracle gs ep rd opts).requestData =
      { module := jsIndexStr (jsSplit ep '/') 0
        action := jsIndexStr (jsSplit ep '/') 1
        timeStamp := .num ts
        mgd := .num gs.session.mgd
        commandNum := .str (commandToken gs.keychain ts gs.session.commandNum)
        extra := rd.extra } := by
  rw [APIRequest_eq, apiFinish_requestData]
  rcases rd with ⟨m, a, t, g, c, ex⟩
  simp [apiEnvelope, h]
  split_ifs <;> rfl

set_option maxRecDepth 8000 in
theorem apiRequest_mutates_request_data_witness :
    (APIRequest hmacConst "" 0 oracleAllOk gsDefault "user/userInfo" callerReqData
        ⟨false, false⟩).requestData =
      { module := .str "user", action := .str "userInfo", timeStamp := .num 0,
        mgd := .num 2, commandNum := .str ".0.2", extra := [("foo", .str "bar")] } := by
  have h := apiRequest_mutates_request_data hmacConst "" 0 oracleAllOk gsDefault "user/userInfo"
    callerReqData ⟨false, false⟩ rfl
  exact h

/-- C9: the constructor silently ignores malformed device credentials — the
corresponding keychain field stays `""` and construction succeeds — whereas
malformed `applicationKey`/`baseKey` (length ≠ 32) or a short `publicKey`
(< 250 characters) make it throw. -/
theorem constructor_validation_asymmetry (o : Config) :
    ((o.baseKey.length ≠ 32 ∨ o.applicationKey.length ≠ 32) →
      grisConstruct o = .error .configKeysInvalid) ∧
    (o.baseKey.length = 32 → o.applicationKey.length = 32 → o.publicKey.length < 250 →
      grisConstruct o = .error .configPublicKeyInvalid) ∧
    (o.baseKey.length = 32 → o.applicationKey.length = 32 → 250 ≤ o.publicKey.length →
      o.host = none → o.applicationIdOpt = none → o.platformTypeOpt = none →
      o.osVersionOpt = none → o.gameModeOpt = none →
      grisConstruct o = .ok
        { session := defaultSession
          keychain :=
            { rsaPublicKey := o.publicKey
              applicationKey := o.applicationKey
              baseKey := o.baseKey
              loginKey := match o.loginKey with
                | some k => if loginKeyCheck k then k else ""
                | none => ""
              loginPasswd := match o.loginPasswd with
                | some p => if loginPasswdCheck p then p else ""
                | none => ""
              sessionKey := List.replicate 32 0 }
          statics := defaultStatics }) := by
  refine ⟨?_, ?_, ?_⟩
  · intro hbad
    simp only [grisConstruct]
    rw [if_pos (show (decide (o.baseKey.length ≠ 32) || decide (o.applicationKey.length ≠ 32))
      = true by rcases hbad with hb | hb <;> simp [hb])]
  · intro hb ha hp
    simp only [grisConstruct]
    rw [if_neg (show ¬ (decide (o.baseKey.length ≠ 32) ||
        decide (o.applicationKey.length ≠ 32)) = true by simp [hb, ha])]
    rw [if_pos (show (decide (o.publicKey.length = 0) || decide (o.publicKey.length < 250))
      = true by simp; omega)]
  · intro hb ha hp hh hid hpt hos hgm
    simp only [grisConstruct, hh]
    rw [if_neg (show ¬ (decide (o.baseKey.length ≠ 32) ||
        decide (o.applicationKey.length ≠ 32)) = true by simp [hb, ha])]
    rw [if_neg (show ¬ (decide (o.publicKey.length = 0) ||
        decide (o.publicKey.length < 250)) = true by simp; omega)]
    simp only [grisConstruct.finishConstruct, hid, hpt, hos, hgm]
    rcases hk : o.loginKey with _ | k <;> rcases hpw : o.loginPasswd with _ | p <;>
      simp [hk, hpw, defaultKeychain, defaultStatics, defaultSession] <;>
      split_ifs <;> simp [defaultKeychain]

set_option maxRecDepth 8000 in
theorem constructor_validation_asymmetry_witness :
    grisConstruct sampleConfig = .ok
      { session := defaultSession
        keychain :=
          { rsaPublicKey := sampleConfig.publicKey
            applicationKey := sampleConfig.applicationKey
            baseKey := sampleConfig.baseKey
            loginKey := ""
            loginPasswd := ""
            sessionKey := List.replicate 32 0 }
        statics := defaultStatics } := by
  have h := (constructor_validation_asymmetry sampleConfig).2.2 (by decide) (by decide)
    (by decide) rfl rfl rfl rfl rfl
  exact h

/-- C10: everything except the `Authorize` header — all other headers
(including `Client-Version`), the multipart body and the `X-Message-Code`
signature — is computed once before the retry loop and reused verbatim by
every retry and every version-skew resend; in particular the `Client-Version`
header still holds the entry client version even on sends made after the
session adopted a new one. -/
theorem send_base_precomputed
    (hmac : String → List Nat → String) (brand : String) (ts : Nat)
    (oracle : Nat → Outcome) (st : Statics) (sess : Session) (ep : String)
    (signKey : List Nat) (fd : Option String) :
    ∀ r ∈ (postRequest hmac brand ts oracle st sess ep signKey fd).sends,
      r.base = mkSendBase hmac brand ts st sess signKey fd ∧
      r.base.headers.clientVersion = sess.clientVersion ∧
      r.base.body = fd.map (fun _ => (createMultipart brand (fd.getD "undefined")).2) ∧
      r.base.xMessageCode = fd.map (fun s => hmac s signKey) := by
  intro r hr
  obtain ⟨news, hsends, _, _, _, _, hmem, _⟩ :=
    prLoop_spec oracle ep (mkSendBase hmac brand ts st sess signKey fd) 5 1 sess none []
  rw [postRequest_sends, hsends, List.nil_append] at hr
  have hb := (hmem r hr).1
  refine ⟨hb, ?_, ?_, ?_⟩ <;> rw [hb] <;> rfl

set_option maxRecDepth 8000 in
theorem send_base_precomputed_witness :
    ((postRequest hmacConst "" 0 oracleSkewThenOk defaultStatics defaultSession "user/userInfo"
        [] (some "rb")).sends.getD 1 dummySend).base.headers.clientVersion = "41.4" ∧
    (postRequest hmacConst "" 0 oracleSkewThenOk defaultStatics defaultSession "user/userInfo"
        [] (some "rb")).session.clientVersion = "42.0" := by
  refine ⟨?_, rfl⟩
  have h := send_base_precomputed hmacConst "" 0 oracleSkewThenOk defaultStatics defaultSession
    "user/userInfo" [] (some "rb")
    ((postRequest hmacConst "" 0 oracleSkewThenOk defaultStatics defaultSession "user/userInfo"
        [] (some "rb")).sends.getD 1 dummySend) (by decide)
  exact h.2.1

end Gris
